import Mathlib

/-!
Verification of the receipts ingestion service (src/main.py).

This file gives a shallow embedding of the reconciliation core of the
service: the Square webhook handler (`square_webhook`), the Stripe webhook
handler (`stripe_webhook`), the in-memory receipt store (the `transactions`
list) and the Square dedupe ledger (`processed_square_event_ids`).

Modelling conventions, all taken from the source:
* Python `None`/absent dict keys are modelled with `Option`; Python string
  truthiness (`a or b`, `if not a`) is modelled by `truthy?`/`pyOr`.
* Monetary floats are exact: `_money_to_float` divides a minor-unit integer
  by 100, modelled with `Rat`.
* `uuid.uuid4()` is modelled by a fresh-id counter threaded through the
  state (receipts are only ever compared for identity, never parsed).
* Network calls (`_square_get_order` together with the item extraction
  `_order_to_items`, `stripe.checkout.Session.list_line_items`) and the
  crypto library primitives (`hmac`/`hashlib`/`base64`) are external
  collaborators; they are supplied as oracle functions in an environment
  record and the handler logic is proved for every oracle.
* The SQLite projection (`_db_write_tx`) and the HTML demo page are
  reporting surfaces outside the reconciliation core and are not modelled.
-/

namespace Receipts

/-- Python string truthiness. `none` models an absent key or `None`;
`truthy? s = some v` exactly when a non-empty string is present
(empty strings are falsy in Python). -/
def truthy? : Option String → Option String
  | none => none
  | some s => if s = "" then none else some s

/-- Python `a or b` on optional strings: `a` when truthy, otherwise `b`
unchanged. -/
def pyOr (a b : Option String) : Option String :=
  match truthy? a with
  | some s => some s
  | none => b

/-- Python `a or d` on an optional integer (`0` and `None` are both falsy). -/
def pyOrInt (a : Option Int) (d : Int) : Int :=
  match a with
  | some n => if n = 0 then d else n
  | none => d

/-- A full Square order object as returned by the `_square_get_order`
enrichment call. The pipeline never inspects it; it is only stored into
`meta["square_order"]`, so it is kept as an uninterpreted blob. -/
structure SqOrder where
  blob : String
deriving DecidableEq

/-- A Square `amount_money` object: `{"amount": minor units, "currency": code}`.
A non-numeric amount (which `_money_to_float` maps to `0.0` via its
`except` arm) is modelled as an absent amount. -/
structure Money where
  amount : Option Int
  currency : Option String
deriving DecidableEq

/-- `_money_to_float`: `(money.get("amount") or 0) / 100.0`, on an optional
`amount_money` dict (`payment.get("amount_money") or {}`). -/
def moneyToFloat (m : Option Money) : Rat :=
  ((pyOrInt (m.bind Money.amount) 0 : Int) : Rat) / 100

/-- The fields of a Square webhook `payment` object read by the handler. -/
structure SqPayment where
  id : Option String
  order_id : Option String
  associated_order_id : Option String
  amount_money : Option Money
deriving DecidableEq

/-- A receipt line item: `{sku, name, quantity, unit_price}` as built by
`_order_to_items` (Square) or the Stripe line-item loop. -/
structure Item where
  sku : Option String
  name : String
  quantity : Rat
  unit_price : Rat
deriving DecidableEq

/-- The fields of a Stripe `price` object read by the handler. -/
structure StripePrice where
  product : Option String
  unit_amount : Option Int
deriving DecidableEq

/-- One element of `stripe.checkout.Session.list_line_items(...)["data"]`. -/
structure StripeLineItem where
  description : Option String
  quantity : Option Int
  price : Option StripePrice
deriving DecidableEq

/-- The fields of a Stripe checkout session read by the handler. -/
structure StripeSession where
  id : String
  client_reference_id : Option String
  payment_intent : Option String
  created : Option Int
  currency : Option String
  amount_total : Option Int
deriving DecidableEq

/-- The `meta` bookkeeping dict of a stored transaction. The source never
distinguishes an absent key from a key stored as `None` (all reads go
through `dict.get`), so both are modelled as `none`. -/
structure TxMeta where
  square_event_type : Option String := none
  square_event_id : Option String := none
  square_order_id : Option String := none
  square_payment : Option SqPayment := none
  square_order : Option SqOrder := none
  stripe_session : Option StripeSession := none
deriving DecidableEq

/-- A stored receipt: one element of the global `transactions` list.
`id` models the `uuid.uuid4()` string. -/
structure Tx where
  id : Nat
  user_id : String
  merchant : String
  payment_id : Option String
  timestamp : Option Int
  currency : String
  total : Rat
  items : List Item
  meta : TxMeta
deriving DecidableEq

/-- The mutable module state the reconciliation core touches:
the `transactions` receipt store, the `processed_square_event_ids` dedupe
ledger (a set, modelled as a list with membership), and the fresh-id
counter standing in for `uuid.uuid4()`. -/
structure St where
  transactions : List Tx
  processed : List String
  nextId : Nat
deriving DecidableEq

/-- The `data.object.order` stub carried by an `order.updated` webhook;
only its `id` is read. -/
structure OrderRef where
  id : Option String
deriving DecidableEq

/-- The fields of a parsed Square webhook payload dict read by the handler.
`objNonDict` records that `(payload.get("data") or {}).get("object") or {}`
is present but not a dict (the handler acks and stops in that case);
`order`/`payment` are `obj.get("order")`/`obj.get("payment")`, collapsed to
`none` when absent or not a dict (both cases take the same `ignored` arm). -/
structure SqPayload where
  type : Option String
  event_id : Option String
  merchant_id : Option String
  objNonDict : Bool
  order : Option OrderRef
  payment : Option SqPayment
deriving DecidableEq

/-- Outcome of `await request.json()` followed by the dict check:
a parse exception, a JSON value that is not an object, or an object. -/
inductive ParsedBody where
  | parseError
  | nonObject
  | obj (p : SqPayload)
deriving DecidableEq

/-- The parts of an incoming Square webhook request the handler reads:
the raw body bytes (as a byte string), the
`x-square-hmacsha256-signature` header, and the parsed JSON body. -/
structure Req where
  bodyBytes : String
  providedSignature : Option String
  parsed : ParsedBody
deriving DecidableEq

/-- Configuration and external collaborators of the Square handler:
env vars, the OAuth token table, the enrichment oracles (network I/O),
the wall clock, and the crypto library primitives. `oauthTokens m` is
`some a` when `m ∈ square_oauth_tokens`, with `a` the token dict's
`access_token` value. `orderToItems` is the composite outcome of
`_order_to_items` (which itself performs catalog lookups over the
network) on a fetched order. -/
structure Env where
  signatureKey : Option String
  notificationUrl : String
  accessToken : Option String
  oauthTokens : String → Option (Option String)
  getOrder : String → Option SqOrder
  orderToItems : SqOrder → List Item
  now : Int
  hmacSha256 : String → String → String
  b64 : String → String

/-- `_square_expected_signature`: base64 of the HMAC-SHA256, under the
signature key, of the notification URL concatenated with the raw body. -/
def squareExpectedSignature (hmacSha256 : String → String → String)
    (b64 : String → String) (signature_key notification_url body : String) : String :=
  b64 (hmacSha256 signature_key (notification_url ++ body))

/-- The signature gate of `square_webhook`: when the signature key is
configured (truthy), compare the expected signature against the header
value (`headers.get(...) or ""`); `true` means the request is rejected
with 401. -/
def sigFails (env : Env) (req : Req) : Bool :=
  match truthy? env.signatureKey with
  | some key =>
    !(squareExpectedSignature env.hmacSha256 env.b64 key env.notificationUrl req.bodyBytes
        == req.providedSignature.getD "")
  | none => false

/-- The per-request effective Square access token after the OAuth
token-switch block: when the payload's `merchant_id` is truthy and has an
entry in `square_oauth_tokens`, use that entry's `access_token` falling
back (Python `or`) to the global token; otherwise the global token. -/
def effToken (env : Env) (mid : Option String) : Option String :=
  match truthy? mid with
  | some m =>
    match env.oauthTokens m with
    | some tokAccess => pyOr tokAccess env.accessToken
    | none => env.accessToken
  | none => env.accessToken

/-- The enrichment step shared by both Square branches: when an access
token is available, fetch the full order and derive items from it;
otherwise no order and no items. -/
def enrich (env : Env) (tok : Bool) (oid : String) : Option SqOrder × List Item :=
  if tok then
    match env.getOrder oid with
    | some o => (some o, env.orderToItems o)
    | none => (none, [])
  else (none, [])

/-- Replace the first element of the list satisfying `p` by its image
under `f`; `none` when no element matches. Models the
`for t in transactions: ... return` update loop of the `order.updated`
branch (first match wins, mutation in place). -/
def updateFirst {α : Type} (p : α → Prop) [DecidablePred p] (f : α → α) :
    List α → Option (List α)
  | [] => none
  | t :: ts =>
    if p t then some (f t :: ts)
    else (updateFirst p f ts).map (fun ts2 => t :: ts2)

/-- Replace the last element of the list satisfying `p` by its image under
`f`; `none` when no element matches. Models
`_find_square_tx_by_payment_id` (which scans `reversed(transactions)` and
returns the first hit, i.e. the last match) followed by in-place mutation
of the returned receipt. -/
def updateLast {α : Type} (p : α → Prop) [DecidablePred p] (f : α → α) :
    List α → Option (List α)
  | [] => none
  | t :: ts =>
    match updateLast p f ts with
    | some ts2 => some (t :: ts2)
    | none => if p t then some (f t :: ts) else none

/-- The in-place mutation of a matched receipt in the `order.updated`
branch: replace `items` only when the incoming list is non-empty, then set
`meta["square_order"]` (unconditionally, even to `None`),
`meta["square_event_type"]` and `meta["square_event_id"]`. -/
def mergeOrderUpdate (order_full : Option SqOrder) (etype eid : Option String)
    (items : List Item) (t : Tx) : Tx :=
  { t with
    items := if items.isEmpty then t.items else items
    meta := { t.meta with
      square_order := order_full
      square_event_type := etype
      square_event_id := eid } }

/-- The in-place mutation of a matched receipt in the `payment.*` branch:
replace `items` only when the incoming list is non-empty, set
`meta["square_order"]` only when an order was fetched, set
`meta["square_event_type"]`/`meta["square_event_id"]`, and set
`meta["square_order_id"]` to `order_id or` its previous value. -/
def mergePaymentUpdate (order_full : Option SqOrder) (etype eid order_id : Option String)
    (items : List Item) (t : Tx) : Tx :=
  { t with
    items := if items.isEmpty then t.items else items
    meta := { t.meta with
      square_order := if order_full.isSome then order_full else t.meta.square_order
      square_event_type := etype
      square_event_id := eid
      square_order_id := pyOr order_id t.meta.square_order_id } }

/-- The receipt freshly appended by the `payment.*` creation path. -/
def newSquareTx (env : Env) (p : SqPayload) (pay : SqPayment) (currency : String)
    (total : Rat) (order_id : Option String) (ofi : Option SqOrder × List Item)
    (payment_id : String) (nid : Nat) : Tx :=
  { id := nid
    user_id := "demo_user"
    merchant := "square"
    payment_id := some payment_id
    timestamp := some env.now
    currency := currency
    total := total
    items := ofi.2
    meta := { square_event_type := p.type
              square_event_id := p.event_id
              square_order_id := order_id
              square_payment := some pay
              square_order := ofi.1 } }

/-- The HTTP-level outcomes of `square_webhook`, tagged by the extra keys
of the returned JSON body (all `ok*` outcomes are HTTP 200). -/
inductive SqResult where
  | err401
  | ok
  | okDeduped
  | okIgnored
  | okUpdatedExisting
  | okNoMatchingTx
  | okCreated
deriving DecidableEq

/-- Currency of a payment fragment:
`(amount_money.get("currency") or "USD").upper()`. -/
def sqCurrency (pay : SqPayment) : String :=
  ((truthy? (pay.amount_money.bind Money.currency)).getD "USD").toUpper

/-- Order id of a payment fragment:
`payment.get("order_id") or payment.get("associated_order_id")`. -/
def sqOrderId (pay : SqPayment) : Option String :=
  pyOr pay.order_id pay.associated_order_id

/-- Payment id of a payment fragment: `payment.get("id") or ""`. -/
def sqPaymentId (pay : SqPayment) : String := (truthy? pay.id).getD ""

/-- Enrichment outcome of the `payment.*` branch: runs only when the
order id is truthy (and, inside `enrich`, when a token is available). -/
def sqOfi (env : Env) (p : SqPayload) (pay : SqPayment) : Option SqOrder × List Item :=
  match truthy? (sqOrderId pay) with
  | some oid => enrich env ((truthy? (effToken env p.merchant_id)).isSome) oid
  | none => (none, [])

/-- The update-or-ack part of the `order.updated` branch: update the first
stored Square receipt whose `meta["square_order_id"]` equals the event's
order id, or acknowledge with `no_matching_tx` (no fallback, no
creation). -/
def squareProcessOrder (_env : Env) (p : SqPayload) (ofi : Option SqOrder × List Item)
    (oid : String) (ts : List Tx) (nid : Nat) : SqResult × List Tx × Nat :=
  match updateFirst
      (fun t => t.merchant = "square" ∧ t.meta.square_order_id = some oid)
      (mergeOrderUpdate ofi.1 p.type p.event_id ofi.2) ts with
  | some ts2 => (.okUpdatedExisting, ts2, nid)
  | none => (.okNoMatchingTx, ts, nid)

/-- The update-or-create part of the `payment.*` branch: update the last
stored Square receipt with the event's payment id
(`_find_square_tx_by_payment_id` scans the list in reverse), or append a
fresh receipt. -/
def squareProcessPayment (env : Env) (p : SqPayload) (pay : SqPayment)
    (ts : List Tx) (nid : Nat) : SqResult × List Tx × Nat :=
  match updateLast
      (fun t => t.merchant = "square" ∧ t.payment_id = some (sqPaymentId pay))
      (mergePaymentUpdate (sqOfi env p pay).1 p.type p.event_id (sqOrderId pay)
        (sqOfi env p pay).2) ts with
  | some ts2 => (.okUpdatedExisting, ts2, nid)
  | none =>
    (.okCreated,
     ts ++ [newSquareTx env p pay (sqCurrency pay) (moneyToFloat pay.amount_money)
        (sqOrderId pay) (sqOfi env p pay) (sqPaymentId pay) nid],
     nid + 1)

/-- The part of `square_webhook` after the signature gate, the dict check
on the payload and the dedupe gate: object extraction, the
`order.updated` branch, the `payment.created`/`payment.updated` branch,
and the final `ignored` acknowledgment. Acts on the receipt store and the
fresh-id counter; the dedupe ledger is handled by the caller. -/
def squareProcess (env : Env) (p : SqPayload) (ts : List Tx) (nid : Nat) :
    SqResult × List Tx × Nat :=
  if p.objNonDict then (.ok, ts, nid)
  else if p.type = some "order.updated" then
    match p.order with
    | none => (.okIgnored, ts, nid)
    | some ord =>
      match truthy? ord.id with
      | none => (.okIgnored, ts, nid)
      | some oid =>
        squareProcessOrder env p
          (enrich env ((truthy? (effToken env p.merchant_id)).isSome) oid) oid ts nid
  else if p.type = some "payment.created" ∨ p.type = some "payment.updated" then
    match p.payment with
    | none => (.okIgnored, ts, nid)
    | some pay => squareProcessPayment env p pay ts nid
  else (.okIgnored, ts, nid)

/-- The Square webhook handler `square_webhook`: signature gate, dict
check, dedupe gate (events with a truthy `event_id` are looked up in and
then marked into the ledger before any further processing), then the
processing pipeline. -/
def squareWebhook (env : Env) (req : Req) (st : St) : SqResult × St :=
  if sigFails env req then (.err401, st)
  else
    match req.parsed with
    | .parseError => (.ok, st)
    | .nonObject => (.ok, st)
    | .obj p =>
      match truthy? p.event_id with
      | some eid =>
        if eid ∈ st.processed then (.okDeduped, st)
        else
          let o := squareProcess env p st.transactions st.nextId
          (o.1, { transactions := o.2.1, processed := eid :: st.processed, nextId := o.2.2 })
      | none =>
        let o := squareProcess env p st.transactions st.nextId
        (o.1, { transactions := o.2.1, processed := st.processed, nextId := o.2.2 })

/-- Repeated delivery of the same request: `deliverN env req n st` is the
state after `n` further deliveries starting from `st`. -/
def deliverN (env : Env) (req : Req) : Nat → St → St
  | 0, st => st
  | n + 1, st => deliverN env req n (squareWebhook env req st).2

/-- The HTTP-level outcomes of `stripe_webhook` (both the creation path
and the ignore path answer the same `{"ok": True}` body). -/
inductive StripeResult where
  | err500
  | err400
  | ok
deriving DecidableEq

/-- Outcome of `stripe.Webhook.construct_event` (the Stripe library's
signature verification, an external collaborator): the verified event, or
`none` for the exception path. -/
structure StripeEvent where
  type : String
  session : StripeSession
deriving DecidableEq

/-- Configuration and external collaborators of the Stripe handler:
the webhook secret env var and the `list_line_items` network oracle
(returning the `data` array for a session id). -/
structure StripeEnv where
  webhookSecret : Option String
  listLineItems : String → List StripeLineItem

/-- An incoming Stripe webhook request, summarized by the outcome of the
library's signature verification. -/
structure StripeReq where
  event : Option StripeEvent

/-- One line item of the Stripe creation path:
`sku = price.get("product") or ""`, `name = li.get("description") or ""`,
`quantity = li.get("quantity") or 1`,
`unit_price = (price.get("unit_amount") or 0) / 100`. -/
def stripeItem (li : StripeLineItem) : Item :=
  { sku := some ((truthy? (li.price.bind StripePrice.product)).getD "")
    name := (truthy? li.description).getD ""
    quantity := ((pyOrInt li.quantity 1 : Int) : Rat)
    unit_price := ((pyOrInt (li.price.bind StripePrice.unit_amount) 0 : Int) : Rat) / 100 }

/-- The receipt built and appended by the `checkout.session.completed`
path of `stripe_webhook`. -/
def stripeTx (env : StripeEnv) (session : StripeSession) (nid : Nat) : Tx :=
  { id := nid
    user_id := (truthy? session.client_reference_id).getD "demo_user"
    merchant := "stripe"
    payment_id := session.payment_intent
    timestamp := session.created
    currency := ((truthy? session.currency).getD "usd").toUpper
    total := ((pyOrInt session.amount_total 0 : Int) : Rat) / 100
    items := (env.listLineItems session.id).map stripeItem
    meta := { stripe_session := some session } }

/-- The Stripe webhook handler `stripe_webhook`: 500 when the secret is
unset, 400 when `construct_event` raises, and on
`checkout.session.completed` an unconditional append of a fresh receipt
built from the session and its listed line items; every other event type
is acknowledged without effect. -/
def stripeWebhook (env : StripeEnv) (req : StripeReq) (st : St) : StripeResult × St :=
  if (truthy? env.webhookSecret).isNone then (.err500, st)
  else
    match req.event with
    | none => (.err400, st)
    | some ev =>
      if ev.type = "checkout.session.completed" then
        (.ok,
         { st with
           transactions := st.transactions ++ [stripeTx env ev.session st.nextId]
           nextId := st.nextId + 1 })
      else (.ok, st)

/-! ## Derived notions used by the verified properties -/

/-- The receipt fields that a merge is never allowed to touch (everything
except `items` and `meta`). -/
def keyFields (t : Tx) : Nat × String × String × Option String × String × Rat × Option Int :=
  (t.id, t.user_id, t.merchant, t.payment_id, t.currency, t.total, t.timestamp)

/-- The payment ids of the Square receipts of a store, in store order. -/
def squarePids (l : List Tx) : List (Option String) :=
  (l.filter (fun t => t.merchant == "square")).map Tx.payment_id

/-- At most one receipt per distinct `(merchant = "square", payment_id)`
pair: the Square payment ids of the store are pairwise distinct. -/
def noDupSquareKey (l : List Tx) : Prop := (squarePids l).Nodup

/-- Number of positions at which two stores of equal length differ
(positions past the shorter store are not counted). -/
def countDiffs {α : Type} [DecidableEq α] : List α → List α → Nat
  | a :: as, b :: bs => (if a = b then 0 else 1) + countDiffs as bs
  | _, _ => 0

/-- Monotonicity of the item list across one step: once non-empty, never
cleared. -/
def itemsMonoRel (a b : Tx) : Prop := a.items ≠ [] → b.items ≠ []

/-- The frame facts every Square webhook step guarantees for the receipts
already in the store: the store only grows, the untouchable fields of the
pre-existing receipts are unchanged, a non-empty item list stays
non-empty, and key uniqueness is preserved. -/
def frameOk (old new : List Tx) : Prop :=
  old.length ≤ new.length ∧
  (new.take old.length).map keyFields = old.map keyFields ∧
  List.Forall₂ itemsMonoRel old (new.take old.length) ∧
  (noDupSquareKey old → noDupSquareKey new)

/-! ## Concrete inputs for witnesses and counterexamples -/

/-- The module state at process start: empty store, empty ledger. -/
def stEmpty : St := { transactions := [], processed := [], nextId := 0 }

/-- A Square environment with no signature key configured, no access
token and quiet oracles (enrichment returns nothing). -/
def envQuiet : Env :=
  { signatureKey := none
    notificationUrl := ""
    accessToken := none
    oauthTokens := fun _ => none
    getOrder := fun _ => none
    orderToItems := fun _ => []
    now := 100
    hmacSha256 := fun _ m => m
    b64 := fun s => s }

/-- Same environment at a later wall-clock time. -/
def envNow200 : Env := { envQuiet with now := 200 }

/-- An environment with a configured signature key and concrete stand-ins
for the crypto primitives. -/
def envSigned : Env :=
  { envQuiet with
    signatureKey := some "k"
    notificationUrl := "u"
    hmacSha256 := fun key m => key ++ m }

/-- A payment fragment for payment `p1` over 500 minor units. -/
def payP1a : SqPayment :=
  { id := some "p1", order_id := none, associated_order_id := none
    amount_money := some { amount := some 500, currency := some "usd" } }

/-- A payment fragment for payment `p1` over 700 minor units. -/
def payP1b : SqPayment :=
  { id := some "p1", order_id := none, associated_order_id := none
    amount_money := some { amount := some 700, currency := some "usd" } }

/-- A `payment.created` event for payment `p1` (event id `e1`). -/
def pldCreateP1 : SqPayload :=
  { type := some "payment.created", event_id := some "e1", merchant_id := none
    objNonDict := false, order := none, payment := some payP1a }

/-- A `payment.updated` event for payment `p1` with a larger, strictly
positive total (event id `e2`). -/
def pldUpdateP1 : SqPayload :=
  { type := some "payment.updated", event_id := some "e2", merchant_id := none
    objNonDict := false, order := none, payment := some payP1b }

/-- A `payment.updated` redelivery-style event for payment `p1` with the
same amount (event id `e2`). -/
def pldUpdateP1same : SqPayload :=
  { type := some "payment.updated", event_id := some "e2", merchant_id := none
    objNonDict := false, order := none, payment := some payP1a }

/-- An `order.updated` event for order `oY`, with no event id. -/
def pldOrderOY : SqPayload :=
  { type := some "order.updated", event_id := none, merchant_id := none
    objNonDict := false, order := some { id := some "oY" }, payment := none }

/-- An event of a kind the pipeline does not consume (event id `e9`). -/
def pldUnknown : SqPayload :=
  { type := some "customer.created", event_id := some "e9", merchant_id := none
    objNonDict := false, order := none, payment := none }

/-- Wrap a parsed payload in a plain unsigned request. -/
def mkReq (p : SqPayload) : Req :=
  { bodyBytes := "", providedSignature := none, parsed := .obj p }

/-- Request delivering `pldCreateP1`. -/
def reqCreateP1 : Req := mkReq pldCreateP1

/-- Request delivering `pldUpdateP1`. -/
def reqUpdateP1 : Req := mkReq pldUpdateP1

/-- Request delivering `pldUpdateP1same`. -/
def reqUpdateP1same : Req := mkReq pldUpdateP1same

/-- Request delivering `pldOrderOY`. -/
def reqOrderOY : Req := mkReq pldOrderOY

/-- Request delivering `pldUnknown`. -/
def reqUnknown : Req := mkReq pldUnknown

/-- A request whose body failed to parse as JSON. -/
def reqMalformed : Req :=
  { bodyBytes := "xx", providedSignature := none, parsed := .parseError }

/-- A request with body `b` and no signature header. -/
def reqBadSig : Req :=
  { bodyBytes := "b", providedSignature := none, parsed := .parseError }

/-- A stored Square receipt linked to order `oX` (and payment `pX`). -/
def txOX : Tx :=
  { id := 7, user_id := "demo_user", merchant := "square", payment_id := some "pX"
    timestamp := some 50, currency := "USD", total := 3, items := []
    meta := { square_order_id := some "oX" } }

/-- A store holding exactly the receipt `txOX`. -/
def stOneOX : St := { transactions := [txOX], processed := [], nextId := 8 }

/-- A checkout session paid by payment intent `pi_1`. -/
def sessPi1 : StripeSession :=
  { id := "cs_1", client_reference_id := none, payment_intent := some "pi_1"
    created := some 111, currency := some "usd", amount_total := some 1000 }

/-- A Stripe environment with the webhook secret configured and no line
items returned by the oracle. -/
def stripeEnvD : StripeEnv :=
  { webhookSecret := some "whsec", listLineItems := fun _ => [] }

/-- A verified `checkout.session.completed` event for `sessPi1`. -/
def stripeReqD : StripeReq :=
  { event := some { type := "checkout.session.completed", session := sessPi1 } }

/-! ## Toolkit lemmas -/

theorem updateFirst_eq {α : Type} {p : α → Prop} [DecidablePred p] {f : α → α} :
    ∀ {l r : List α}, updateFirst p f l = some r →
      ∃ l1 x l2, p x ∧ l = l1 ++ x :: l2 ∧ r = l1 ++ f x :: l2 := by
  intro l
  induction l with
  | nil => intro r h; simp [updateFirst] at h
  | cons t ts ih =>
    intro r h
    by_cases hp : p t
    · refine ⟨[], t, ts, hp, rfl, ?_⟩
      simp only [updateFirst, if_pos hp, Option.some.injEq] at h
      simp [← h]
    · simp only [updateFirst, if_neg hp] at h
      cases hu : updateFirst p f ts with
      | none => rw [hu] at h; simp at h
      | some ts2 =>
        rw [hu] at h
        simp only [Option.map_some', Option.some.injEq] at h
        obtain ⟨l1, x, l2, hx, h1, h2⟩ := ih hu
        exact ⟨t :: l1, x, l2, hx, by simp [h1], by simp [← h, h2]⟩

theorem updateFirst_eq_none_of {α : Type} {p : α → Prop} [DecidablePred p] (f : α → α) :
    ∀ {l : List α}, (∀ t ∈ l, ¬ p t) → updateFirst p f l = none := by
  intro l
  induction l with
  | nil => intro _; rfl
  | cons t ts ih =>
    intro h
    have hp : ¬ p t := h t (by simp)
    simp [updateFirst, hp, ih (fun x hx => h x (by simp [hx]))]

theorem updateLast_eq {α : Type} {p : α → Prop} [DecidablePred p] {f : α → α} :
    ∀ {l r : List α}, updateLast p f l = some r →
      ∃ l1 x l2, p x ∧ l = l1 ++ x :: l2 ∧ r = l1 ++ f x :: l2 := by
  intro l
  induction l with
  | nil => intro r h; simp [updateLast] at h
  | cons t ts ih =>
    intro r h
    simp only [updateLast] at h
    cases hu : updateLast p f ts with
    | some ts2 =>
      rw [hu] at h
      obtain ⟨l1, x, l2, hx, h1, h2⟩ := ih hu
      have hr : t :: ts2 = r := Option.some.inj h
      exact ⟨t :: l1, x, l2, hx, by simp [h1], by simp [← hr, h2]⟩
    | none =>
      rw [hu] at h
      by_cases hp : p t
      · rw [if_pos hp] at h
        have hr : f t :: ts = r := Option.some.inj h
        exact ⟨[], t, ts, hp, rfl, by simp [← hr]⟩
      · rw [if_neg hp] at h; simp at h

theorem updateLast_eq_none {α : Type} {p : α → Prop} [DecidablePred p] {f : α → α} :
    ∀ {l : List α}, updateLast p f l = none → ∀ t ∈ l, ¬ p t := by
  intro l
  induction l with
  | nil => simp
  | cons t ts ih =>
    intro h
    simp only [updateLast] at h
    cases hu : updateLast p f ts with
    | some ts2 => rw [hu] at h; simp at h
    | none =>
      rw [hu] at h
      by_cases hp : p t
      · rw [if_pos hp] at h; simp at h
      · intro x hx
        rcases List.mem_cons.mp hx with rfl | hmem
        · exact hp
        · exact ih hu x hmem

theorem countDiffs_self {α : Type} [DecidableEq α] : ∀ l : List α, countDiffs l l = 0 := by
  intro l
  induction l with
  | nil => rfl
  | cons a as ih => simp [countDiffs, ih]

theorem countDiffs_append_left {α : Type} [DecidableEq α] (a1 a2 : List α) :
    ∀ l : List α, countDiffs (l ++ a1) (l ++ a2) = countDiffs a1 a2 := by
  intro l
  induction l with
  | nil => rfl
  | cons x xs ih => simp [countDiffs, ih]

theorem countDiffs_single {α : Type} [DecidableEq α] (l1 l2 : List α) (x y : α) :
    countDiffs (l1 ++ x :: l2) (l1 ++ y :: l2) ≤ 1 := by
  rw [countDiffs_append_left]
  simp only [countDiffs, countDiffs_self]
  split <;> omega

theorem merchant_eq_of_keyFields {a b : Tx} (h : keyFields a = keyFields b) :
    a.merchant = b.merchant := by
  simpa using congrArg (fun x => x.2.2.1) h

theorem payment_id_eq_of_keyFields {a b : Tx} (h : keyFields a = keyFields b) :
    a.payment_id = b.payment_id := by
  simpa using congrArg (fun x => x.2.2.2.1) h

theorem squarePids_append (l1 l2 : List Tx) :
    squarePids (l1 ++ l2) = squarePids l1 ++ squarePids l2 := by
  simp [squarePids, List.filter_append]

theorem squarePids_cons (t : Tx) (l : List Tx) :
    squarePids (t :: l) =
      if t.merchant = "square" then t.payment_id :: squarePids l else squarePids l := by
  by_cases h : t.merchant = "square" <;> simp [squarePids, List.filter_cons, h]

theorem not_mem_squarePids {pid : Option String} {l : List Tx}
    (h : ∀ t ∈ l, ¬(t.merchant = "square" ∧ t.payment_id = pid)) : pid ∉ squarePids l := by
  intro hmem
  simp only [squarePids, List.mem_map, List.mem_filter] at hmem
  obtain ⟨t, ⟨htl, hsq⟩, hpid⟩ := hmem
  exact h t htl ⟨by simpa using hsq, hpid⟩

theorem squarePids_eq_of_map_keyFields :
    ∀ {l1 l2 : List Tx}, l1.map keyFields = l2.map keyFields → squarePids l1 = squarePids l2 := by
  intro l1
  induction l1 with
  | nil =>
    intro l2 h
    cases l2 with
    | nil => rfl
    | cons u us => simp at h
  | cons t ts ih =>
    intro l2 h
    cases l2 with
    | nil => simp at h
    | cons u us =>
      simp only [List.map_cons, List.cons.injEq] at h
      rw [squarePids_cons, squarePids_cons, merchant_eq_of_keyFields h.1,
        payment_id_eq_of_keyFields h.1, ih h.2]

theorem map_of_map_keyFields {β : Type} (g : Tx → β)
    (pf : Nat × String × String × Option String × String × Rat × Option Int → β)
    (hp : ∀ t, g t = pf (keyFields t)) :
    ∀ {l1 l2 : List Tx}, l1.map keyFields = l2.map keyFields → l1.map g = l2.map g := by
  intro l1
  induction l1 with
  | nil =>
    intro l2 h
    cases l2 with
    | nil => rfl
    | cons u us => simp at h
  | cons t ts ih =>
    intro l2 h
    cases l2 with
    | nil => simp at h
    | cons u us =>
      simp only [List.map_cons, List.cons.injEq] at h ⊢
      exact ⟨by rw [hp, hp, h.1], ih h.2⟩

theorem take_len_append {α : Type} (l : List α) (x : α) : (l ++ [x]).take l.length = l := by
  induction l with
  | nil => rfl
  | cons a as ih => simp [List.take, ih]

theorem mergeItems_mono (its : List Item) (t : Tx) :
    t.items ≠ [] → (if its.isEmpty then t.items else its) ≠ [] := by
  intro h
  by_cases he : its.isEmpty
  · simpa [he] using h
  · simp only [he, if_false, Bool.false_eq_true]
    intro hn
    exact he (by simp [hn])

theorem keyFields_mergeOrderUpdate (of : Option SqOrder) (et ei : Option String)
    (its : List Item) (t : Tx) : keyFields (mergeOrderUpdate of et ei its t) = keyFields t := rfl

theorem keyFields_mergePaymentUpdate (of : Option SqOrder) (et ei oid : Option String)
    (its : List Item) (t : Tx) :
    keyFields (mergePaymentUpdate of et ei oid its t) = keyFields t := rfl

theorem frameOk_refl (l : List Tx) : frameOk l l := by
  refine ⟨le_refl _, by simp, ?_, fun h => h⟩
  rw [List.take_length]
  exact List.forall₂_same.mpr (fun x _ => fun h => h)

theorem frameOk_merge {old new : List Tx} (mrg : Tx → Tx)
    (hkf : ∀ t, keyFields (mrg t) = keyFields t)
    (hit : ∀ t, itemsMonoRel t (mrg t))
    (l1 : List Tx) (x : Tx) (l2 : List Tx)
    (h1 : old = l1 ++ x :: l2) (h2 : new = l1 ++ mrg x :: l2) : frameOk old new := by
  have hlen : new.length = old.length := by simp [h1, h2]
  have hmap : new.map keyFields = old.map keyFields := by
    subst h1; subst h2
    simp [hkf]
  refine ⟨le_of_eq hlen.symm, ?_, ?_, ?_⟩
  · rw [← hlen, List.take_length, hmap]
  · rw [← hlen, List.take_length]
    subst h1; subst h2
    exact List.rel_append
      (List.forall₂_same.mpr (fun a _ => fun h => h))
      (List.Forall₂.cons (hit x) (List.forall₂_same.mpr (fun a _ => fun h => h)))
  · intro h
    unfold noDupSquareKey at h ⊢
    rw [squarePids_eq_of_map_keyFields hmap]
    exact h

theorem frameOk_append {old : List Tx} (tx : Tx) (htx : tx.merchant = "square")
    (hpid : ∀ t ∈ old, ¬(t.merchant = "square" ∧ t.payment_id = tx.payment_id)) :
    frameOk old (old ++ [tx]) := by
  refine ⟨by simp, ?_, ?_, ?_⟩
  · rw [take_len_append]
  · rw [take_len_append]
    exact List.forall₂_same.mpr (fun a _ => fun h => h)
  · intro h
    unfold noDupSquareKey at h ⊢
    rw [squarePids_append]
    have hsingle : squarePids [tx] = [tx.payment_id] := by
      simp [squarePids, List.filter_cons, htx]
    rw [hsingle]
    refine List.Nodup.append h (List.nodup_singleton _) ?_
    intro a ha hb
    rw [List.mem_singleton] at hb
    subst hb
    exact not_mem_squarePids hpid ha

theorem squareProcessOrder_frame (env : Env) (p : SqPayload)
    (ofi : Option SqOrder × List Item) (oid : String) (ts : List Tx) (nid : Nat) :
    frameOk ts (squareProcessOrder env p ofi oid ts nid).2.1 := by
  unfold squareProcessOrder
  cases hu : updateFirst
      (fun t => t.merchant = "square" ∧ t.meta.square_order_id = some oid)
      (mergeOrderUpdate ofi.1 p.type p.event_id ofi.2) ts with
  | none => exact frameOk_refl ts
  | some ts2 =>
    obtain ⟨l1, x, l2, _, h1, h2⟩ := updateFirst_eq hu
    exact frameOk_merge (mergeOrderUpdate ofi.1 p.type p.event_id ofi.2)
      (fun t => rfl) (fun t => mergeItems_mono ofi.2 t) l1 x l2 h1 h2

theorem squareProcessPayment_frame (env : Env) (p : SqPayload) (pay : SqPayment)
    (ts : List Tx) (nid : Nat) :
    frameOk ts (squareProcessPayment env p pay ts nid).2.1 := by
  unfold squareProcessPayment
  cases hu : updateLast
      (fun t => t.merchant = "square" ∧ t.payment_id = some (sqPaymentId pay))
      (mergePaymentUpdate (sqOfi env p pay).1 p.type p.event_id (sqOrderId pay)
        (sqOfi env p pay).2) ts with
  | some ts2 =>
    obtain ⟨l1, x, l2, _, h1, h2⟩ := updateLast_eq hu
    exact frameOk_merge
      (mergePaymentUpdate (sqOfi env p pay).1 p.type p.event_id (sqOrderId pay)
        (sqOfi env p pay).2)
      (fun t => rfl) (fun t => mergeItems_mono (sqOfi env p pay).2 t) l1 x l2 h1 h2
  | none =>
    exact frameOk_append _ rfl (updateLast_eq_none hu)

theorem squareProcess_frame (env : Env) (p : SqPayload) (ts : List Tx) (nid : Nat) :
    frameOk ts (squareProcess env p ts nid).2.1 := by
  unfold squareProcess
  split
  · exact frameOk_refl ts
  split
  · split
    · exact frameOk_refl ts
    · split
      · exact frameOk_refl ts
      · exact squareProcessOrder_frame ..
  split
  · split
    · exact frameOk_refl ts
    · exact squareProcessPayment_frame ..
  · exact frameOk_refl ts

theorem squareWebhook_frame (env : Env) (req : Req) (st : St) :
    frameOk st.transactions (squareWebhook env req st).2.transactions := by
  unfold squareWebhook
  split
  · exact frameOk_refl _
  split
  · exact frameOk_refl _
  · exact frameOk_refl _
  · split
    · split
      · exact frameOk_refl _
      · exact squareProcess_frame ..
    · exact squareProcess_frame ..

/-- On an event whose kind is none of the three consumed kinds, the
pipeline section is a pure acknowledgment. -/
theorem squareProcess_unknown (env : Env) (p : SqPayload) (ts : List Tx) (nid : Nat)
    (h1 : p.type ≠ some "order.updated") (h2 : p.type ≠ some "payment.created")
    (h3 : p.type ≠ some "payment.updated") :
    squareProcess env p ts nid = ((if p.objNonDict then .ok else .okIgnored), ts, nid) := by
  unfold squareProcess
  by_cases h0 : p.objNonDict
  · simp [h0]
  · simp [h0, h1, h2, h3]

/-- A request whose event id is already in the ledger is answered
`deduped_event` with no state change at all. -/
theorem squareWebhook_seen (env : Env) (req : Req) (st : St) (p : SqPayload) (eid : String)
    (hsig : sigFails env req = false) (hp : req.parsed = .obj p)
    (heid : truthy? p.event_id = some eid) (hmem : eid ∈ st.processed) :
    squareWebhook env req st = (.okDeduped, st) := by
  unfold squareWebhook
  simp [hsig, hp, heid, hmem]

/-- The `order.updated` update-or-ack step changes the untouchable fields
of no receipt and changes at most one receipt. -/
theorem squareProcessOrder_order_frame (env : Env) (p : SqPayload)
    (ofi : Option SqOrder × List Item) (oid : String) (ts : List Tx) (nid : Nat) :
    (squareProcessOrder env p ofi oid ts nid).2.1.map keyFields = ts.map keyFields ∧
    countDiffs ts (squareProcessOrder env p ofi oid ts nid).2.1 ≤ 1 := by
  unfold squareProcessOrder
  cases hu : updateFirst
      (fun t => t.merchant = "square" ∧ t.meta.square_order_id = some oid)
      (mergeOrderUpdate ofi.1 p.type p.event_id ofi.2) ts with
  | none => exact ⟨rfl, by simp [countDiffs_self]⟩
  | some ts2 =>
    obtain ⟨l1, x, l2, _, h1, h2⟩ := updateFirst_eq hu
    subst h1
    subst h2
    constructor
    · simp [keyFields_mergeOrderUpdate]
    · exact countDiffs_single l1 l2 x _

/-- An `order.updated` event leaves the untouchable fields of every stored
receipt unchanged and modifies at most one receipt of the store. -/
theorem squareProcess_order_frame (env : Env) (p : SqPayload) (ts : List Tx) (nid : Nat)
    (ht : p.type = some "order.updated") :
    (squareProcess env p ts nid).2.1.map keyFields = ts.map keyFields ∧
    countDiffs ts (squareProcess env p ts nid).2.1 ≤ 1 := by
  unfold squareProcess
  rw [ht]
  by_cases h0 : p.objNonDict
  · simp [h0, countDiffs_self]
  · rw [if_neg h0, if_pos rfl]
    split
    · simp [countDiffs_self]
    · split
      · simp [countDiffs_self]
      · exact squareProcessOrder_order_frame ..

/-- A request with a fresh truthy event id marks that id into the ledger. -/
theorem squareWebhook_mark (env : Env) (req : Req) (st : St) (p : SqPayload) (eid : String)
    (hsig : sigFails env req = false) (hp : req.parsed = .obj p)
    (heid : truthy? p.event_id = some eid) (hnin : eid ∉ st.processed) :
    (squareWebhook env req st).2.processed = eid :: st.processed := by
  unfold squareWebhook
  simp [hsig, hp, heid, hnin]

/-! ## The claims -/

/-- Claim C1 counterexample: two deliveries of the same verified Stripe
`checkout.session.completed` event (payment intent `pi_1`) leave two
stored receipts sharing the pair `(merchant = "stripe", payment_id =
"pi_1")`: the Stripe handler appends unconditionally, so at-most-one
receipt per `(merchant, payment_id)` fails for provider A. -/
theorem stripeDuplicateReceipts_cex :
    ((stripeWebhook stripeEnvD stripeReqD
          ((stripeWebhook stripeEnvD stripeReqD stEmpty).2)).2.transactions.filter
        (fun t => t.merchant == "stripe" && t.payment_id == some "pi_1")).length = 2 := by
  decide

/-- Claim C1 (amended): at most one receipt per distinct
`(merchant = "square", payment_id)` pair is an invariant of the store:
it is preserved by every Square webhook delivery (a `payment.*` event
whose payment id already identifies a stored Square receipt merges into
it instead of appending) and by every Stripe delivery (which only ever
appends Stripe receipts). For provider A itself the uniqueness fails
(see the counterexample): `stripe_webhook` appends a new receipt on
every delivery. -/
theorem uniqueSquareReceiptPerKey :
    (∀ (env : Env) (req : Req) (st : St), noDupSquareKey st.transactions →
      noDupSquareKey (squareWebhook env req st).2.transactions) ∧
    (∀ (env : StripeEnv) (req : StripeReq) (st : St), noDupSquareKey st.transactions →
      noDupSquareKey (stripeWebhook env req st).2.transactions) := by
  constructor
  · intro env req st h
    exact (squareWebhook_frame env req st).2.2.2 h
  · intro env req st h
    unfold stripeWebhook
    by_cases hs : (truthy? env.webhookSecret).isNone
    · rw [if_pos hs]; exact h
    · rw [if_neg hs]
      split
      · exact h
      · next ev _heq =>
        by_cases hty : ev.type = "checkout.session.completed"
        · rw [if_pos hty]
          unfold noDupSquareKey at h ⊢
          show (squarePids (st.transactions ++ [stripeTx env ev.session st.nextId])).Nodup
          rw [squarePids_append]
          have h1 : squarePids [stripeTx env ev.session st.nextId] = [] := by
            rw [squarePids_cons, if_neg (by simp [stripeTx])]
            rfl
          rw [h1, List.append_nil]
          exact h
        · rw [if_neg hty]; exact h

/-- Witness for C1 (amended), at the empty store and a concrete Square
creation event. -/
theorem uniqueSquareReceiptPerKey_holds :
    noDupSquareKey stEmpty.transactions ∧
    noDupSquareKey (squareWebhook envQuiet reqCreateP1 stEmpty).2.transactions :=
  ⟨by simp [noDupSquareKey, squarePids, stEmpty],
   uniqueSquareReceiptPerKey.1 envQuiet reqCreateP1 stEmpty
     (by simp [noDupSquareKey, squarePids, stEmpty])⟩

/-- Claim C2: delivering a Square event carrying a (truthy) event id a
second time is answered `deduped_event`, and any number of further
redeliveries leave the state exactly as after the first delivery: the
ledger is consulted and marked before any receipt effect. -/
theorem squareRedeliveryIdempotent (env : Env) (req : Req) (st : St) (p : SqPayload)
    (eid : String) (n : Nat)
    (hsig : sigFails env req = false) (hp : req.parsed = .obj p)
    (heid : truthy? p.event_id = some eid) :
    (squareWebhook env req ((squareWebhook env req st).2)).1 = .okDeduped ∧
    deliverN env req n ((squareWebhook env req st).2) = (squareWebhook env req st).2 := by
  have hmem : eid ∈ ((squareWebhook env req st).2).processed := by
    by_cases hin : eid ∈ st.processed
    · rw [squareWebhook_seen env req st p eid hsig hp heid hin]
      exact hin
    · rw [squareWebhook_mark env req st p eid hsig hp heid hin]
      exact List.mem_cons_self _ _
  have hstep : squareWebhook env req ((squareWebhook env req st).2)
      = (.okDeduped, (squareWebhook env req st).2) :=
    squareWebhook_seen env req _ p eid hsig hp heid hmem
  refine ⟨by rw [hstep], ?_⟩
  induction n with
  | zero => rfl
  | succ k ih =>
    have hk : deliverN env req (k + 1) ((squareWebhook env req st).2)
        = deliverN env req k ((squareWebhook env req ((squareWebhook env req st).2)).2) := rfl
    rw [hk, hstep]
    exact ih

/-- Witness for C2, at the empty store and a concrete creation event with
event id `e1`, redelivered three further times. -/
theorem squareRedeliveryIdempotent_holds :
    (sigFails envQuiet reqCreateP1 = false ∧ reqCreateP1.parsed = .obj pldCreateP1 ∧
      truthy? pldCreateP1.event_id = some "e1") ∧
    ((squareWebhook envQuiet reqCreateP1
        ((squareWebhook envQuiet reqCreateP1 stEmpty).2)).1 = .okDeduped ∧
      deliverN envQuiet reqCreateP1 3 ((squareWebhook envQuiet reqCreateP1 stEmpty).2)
        = (squareWebhook envQuiet reqCreateP1 stEmpty).2) :=
  ⟨⟨by decide, rfl, by decide⟩,
   squareRedeliveryIdempotent envQuiet reqCreateP1 stEmpty pldCreateP1 "e1" 3
     (by decide) rfl (by decide)⟩

/-- Claim C4: both merge paths replace the item list wholesale exactly
when the incoming list is non-empty (never element-by-element), and along
every Square webhook step a pre-existing receipt with non-empty items
keeps non-empty items. -/
theorem itemsReplacedWholesale :
    (∀ (of : Option SqOrder) (et ei : Option String) (its : List Item) (t : Tx),
      (mergeOrderUpdate of et ei its t).items = if its.isEmpty then t.items else its) ∧
    (∀ (of : Option SqOrder) (et ei oid : Option String) (its : List Item) (t : Tx),
      (mergePaymentUpdate of et ei oid its t).items = if its.isEmpty then t.items else its) ∧
    (∀ (env : Env) (req : Req) (st : St),
      List.Forall₂ itemsMonoRel st.transactions
        ((squareWebhook env req st).2.transactions.take st.transactions.length)) :=
  ⟨fun _ _ _ _ _ => rfl, fun _ _ _ _ _ _ => rfl,
   fun env req st => (squareWebhook_frame env req st).2.2.1⟩

/-- Claim C5 counterexample: a receipt created from a `payment.created`
event with total 5.00 is then hit by a `payment.updated` merge whose
incoming total 7.00 is strictly positive, yet the stored total remains
5.00 — the merge path never writes `total`, so "replace iff incoming
total > 0" fails in the "if" direction. -/
theorem totalMerge_cex :
    ((squareWebhook envQuiet reqUpdateP1
        ((squareWebhook envQuiet reqCreateP1 stEmpty).2)).2.transactions.map Tx.total
      = [moneyToFloat payP1a.amount_money]) ∧
    moneyToFloat payP1a.amount_money = 5 ∧
    moneyToFloat payP1b.amount_money = 7 ∧ (5 : Rat) ≠ 7 := by
  refine ⟨rfl, ?_, ?_, by norm_num⟩
  · norm_num [moneyToFloat, payP1a, pyOrInt]
  · norm_num [moneyToFloat, payP1b, pyOrInt]

/-- Claim C5 (amended): a merge into an existing receipt never modifies
the stored total (it is set only at creation); in particular a zero or
unknown incoming total never erases a known positive total. -/
theorem totalNeverMerged :
    (∀ (of : Option SqOrder) (et ei oid : Option String) (its : List Item) (t : Tx),
      (mergePaymentUpdate of et ei oid its t).total = t.total) ∧
    (∀ (of : Option SqOrder) (et ei : Option String) (its : List Item) (t : Tx),
      (mergeOrderUpdate of et ei its t).total = t.total) ∧
    (∀ (env : Env) (req : Req) (st : St),
      ((squareWebhook env req st).2.transactions.take st.transactions.length).map Tx.total
        = st.transactions.map Tx.total) :=
  ⟨fun _ _ _ _ _ _ => rfl, fun _ _ _ _ _ => rfl,
   fun env req st =>
     map_of_map_keyFields Tx.total (fun x => x.2.2.2.2.2.1) (fun _ => rfl)
       (squareWebhook_frame env req st).2.1⟩

/-- Claim C6 counterexample: a receipt created at wall-clock time 100 is
merged by a later `payment.updated` event processed at time 200 (the
incoming fragment's timestamp, `int(time.time())`, is always present),
yet the stored timestamp remains 100 — the merge path never writes
`timestamp`, so last-write-wins replacement fails. -/
theorem timestampMerge_cex :
    ((squareWebhook envNow200 reqUpdateP1same
        ((squareWebhook envQuiet reqCreateP1 stEmpty).2)).2.transactions.map Tx.timestamp
      = [some envQuiet.now]) ∧
    envQuiet.now = 100 ∧ envNow200.now = 200 ∧ some (100 : Int) ≠ some (200 : Int) := by
  exact ⟨rfl, rfl, rfl, by decide⟩

/-- Claim C6 (amended): a merge into an existing receipt never modifies
the stored timestamp; the timestamp is set only at creation, to the
handler's processing time. -/
theorem timestampNeverMerged :
    (∀ (of : Option SqOrder) (et ei oid : Option String) (its : List Item) (t : Tx),
      (mergePaymentUpdate of et ei oid its t).timestamp = t.timestamp) ∧
    (∀ (of : Option SqOrder) (et ei : Option String) (its : List Item) (t : Tx),
      (mergeOrderUpdate of et ei its t).timestamp = t.timestamp) ∧
    (∀ (env : Env) (req : Req) (st : St),
      ((squareWebhook env req st).2.transactions.take st.transactions.length).map Tx.timestamp
        = st.transactions.map Tx.timestamp) :=
  ⟨fun _ _ _ _ _ _ => rfl, fun _ _ _ _ _ => rfl,
   fun env req st =>
     map_of_map_keyFields Tx.timestamp (fun x => x.2.2.2.2.2.2) (fun _ => rfl)
       (squareWebhook_frame env req st).2.1⟩

/-- When the three guards of the `order.updated` branch pass, the pipeline
section is exactly the update-or-ack step. -/
theorem squareProcess_order_eq (env : Env) (p : SqPayload) (ts : List Tx) (nid : Nat)
    (ord : OrderRef) (oid : String)
    (hobj : p.objNonDict = false) (ht : p.type = some "order.updated")
    (hord : p.order = some ord) (hid : truthy? ord.id = some oid) :
    squareProcess env p ts nid =
      squareProcessOrder env p
        (enrich env ((truthy? (effToken env p.merchant_id)).isSome) oid) oid ts nid := by
  unfold squareProcess
  simp [hobj, ht, hord, hid]

/-- Claim C3 counterexample: an `order.updated` event for order `oY`
delivered while the store holds one Square receipt (linked to order `oX`)
is acknowledged `no_matching_tx` and leaves the store completely
unchanged: the handler neither falls back to the most recently created
Square receipt nor creates a new receipt from the order fragment. -/
theorem orderFallbackAbsent_cex :
    squareWebhook envQuiet reqOrderOY stOneOX = (.okNoMatchingTx, stOneOX) ∧
    stOneOX.transactions.length = 1 :=
  ⟨rfl, rfl⟩

/-- Claim C3 (amended): an `order.updated` event whose order id matches no
stored Square receipt's `meta["square_order_id"]` is acknowledged
`no_matching_tx` with no effect on the store: there is no fallback to the
provider's most recent receipt and no creation of a new receipt. -/
theorem orderNoMatchAcked (env : Env) (p : SqPayload) (ts : List Tx) (nid : Nat)
    (ord : OrderRef) (oid : String)
    (hobj : p.objNonDict = false) (ht : p.type = some "order.updated")
    (hord : p.order = some ord) (hid : truthy? ord.id = some oid)
    (hno : ∀ t ∈ ts, ¬(t.merchant = "square" ∧ t.meta.square_order_id = some oid)) :
    squareProcess env p ts nid = (.okNoMatchingTx, ts, nid) := by
  rw [squareProcess_order_eq env p ts nid ord oid hobj ht hord hid]
  unfold squareProcessOrder
  rw [updateFirst_eq_none_of _ hno]

/-- Witness for C3 (amended): the `oY` order event against the store
holding only the `oX`-linked receipt. -/
theorem orderNoMatchAcked_holds :
    (pldOrderOY.objNonDict = false ∧ pldOrderOY.type = some "order.updated" ∧
      pldOrderOY.order = some { id := some "oY" } ∧
      truthy? (some "oY") = some "oY" ∧
      ∀ t ∈ stOneOX.transactions,
        ¬(t.merchant = "square" ∧ t.meta.square_order_id = some "oY")) ∧
    squareProcess envQuiet pldOrderOY stOneOX.transactions stOneOX.nextId
      = (.okNoMatchingTx, stOneOX.transactions, stOneOX.nextId) :=
  ⟨⟨rfl, rfl, rfl, rfl, by decide⟩,
   orderNoMatchAcked envQuiet pldOrderOY stOneOX.transactions stOneOX.nextId
     { id := some "oY" } "oY" rfl rfl rfl rfl (by decide)⟩

/-- Claim C7: with a signature key configured, a request whose header
signature differs from the expected base64 HMAC of
`notification_url + raw_body` is rejected with 401 and the state (receipt
store and dedupe ledger alike) is returned untouched. -/
theorem invalidSignatureRejected (env : Env) (req : Req) (st : St) (key : String)
    (hk : truthy? env.signatureKey = some key)
    (hne : squareExpectedSignature env.hmacSha256 env.b64 key env.notificationUrl req.bodyBytes
        ≠ req.providedSignature.getD "") :
    squareWebhook env req st = (.err401, st) := by
  have hfail : sigFails env req = true := by
    unfold sigFails
    rw [hk]
    simp [hne]
  unfold squareWebhook
  simp [hfail]

/-- Witness for C7: a concrete signed environment and an unsigned request. -/
theorem invalidSignatureRejected_holds :
    (truthy? envSigned.signatureKey = some "k" ∧
      squareExpectedSignature envSigned.hmacSha256 envSigned.b64 "k" envSigned.notificationUrl
        reqBadSig.bodyBytes ≠ reqBadSig.providedSignature.getD "") ∧
    squareWebhook envSigned reqBadSig stEmpty = (.err401, stEmpty) :=
  ⟨⟨by decide, by decide⟩,
   invalidSignatureRejected envSigned reqBadSig stEmpty "k" (by decide) (by decide)⟩

/-- Claim C8: when the signature gate passes (or is not configured), a
request whose body is not parseable as a JSON object is acknowledged with
the plain success body and the state is returned untouched. -/
theorem malformedBodyAcked (env : Env) (req : Req) (st : St)
    (hsig : sigFails env req = false)
    (hm : req.parsed = .parseError ∨ req.parsed = .nonObject) :
    squareWebhook env req st = (.ok, st) := by
  unfold squareWebhook
  rcases hm with hm | hm <;> simp [hsig, hm]

/-- Witness for C8: an unparseable body in an unsigned environment. -/
theorem malformedBodyAcked_holds :
    (sigFails envQuiet reqMalformed = false ∧
      (reqMalformed.parsed = .parseError ∨ reqMalformed.parsed = .nonObject)) ∧
    squareWebhook envQuiet reqMalformed stEmpty = (.ok, stEmpty) :=
  ⟨⟨by decide, Or.inl rfl⟩,
   malformedBodyAcked envQuiet reqMalformed stEmpty (by decide) (Or.inl rfl)⟩

/-- Claim C9 counterexample: an event of unknown kind carrying event id
`e9` leaves the receipt store untouched but does modify the dedupe
ledger — the id is marked seen before the kind dispatch, so "neither the
receipt store nor the dedupe ledger is modified" fails. -/
theorem unknownKindLedger_cex :
    (squareWebhook envQuiet reqUnknown stEmpty).2.processed = ["e9"] ∧
    (["e9"] : List String) ≠ [] ∧
    (squareWebhook envQuiet reqUnknown stEmpty).2.transactions = [] :=
  ⟨rfl, by decide, rfl⟩

/-- Claim C9 (amended): an event of unknown or irrelevant kind
short-circuits with a success acknowledgment and no receipt-store effect,
but its (truthy, unseen) event id is recorded into the dedupe ledger,
because the ledger is marked before the kind dispatch. -/
theorem unknownKindFrame (env : Env) (req : Req) (st : St) (p : SqPayload)
    (hsig : sigFails env req = false) (hp : req.parsed = .obj p)
    (h1 : p.type ≠ some "order.updated") (h2 : p.type ≠ some "payment.created")
    (h3 : p.type ≠ some "payment.updated") :
    (squareWebhook env req st).2.transactions = st.transactions ∧
    ((squareWebhook env req st).1 = .okDeduped ∨ (squareWebhook env req st).1 = .ok ∨
      (squareWebhook env req st).1 = .okIgnored) ∧
    (squareWebhook env req st).2.processed =
      (match truthy? p.event_id with
       | some eid => if eid ∈ st.processed then st.processed else eid :: st.processed
       | none => st.processed) := by
  have hu := squareProcess_unknown env p st.transactions st.nextId h1 h2 h3
  unfold squareWebhook
  cases heid : truthy? p.event_id with
  | some eid =>
    by_cases hin : eid ∈ st.processed
    · simp [hsig, hp, heid, hin]
    · simp only [hsig, Bool.false_eq_true, if_false, hp, heid, hu]
      by_cases h0 : p.objNonDict <;> simp [h0, hin]
  | none =>
    simp only [hsig, Bool.false_eq_true, if_false, hp, heid, hu]
    by_cases h0 : p.objNonDict <;> simp [h0]

/-- Witness for C9 (amended): the `customer.created` event with id `e9`
against the empty state. -/
theorem unknownKindFrame_holds :
    (sigFails envQuiet reqUnknown = false ∧ reqUnknown.parsed = .obj pldUnknown ∧
      pldUnknown.type ≠ some "order.updated" ∧ pldUnknown.type ≠ some "payment.created" ∧
      pldUnknown.type ≠ some "payment.updated") ∧
    ((squareWebhook envQuiet reqUnknown stEmpty).2.transactions = stEmpty.transactions ∧
      ((squareWebhook envQuiet reqUnknown stEmpty).1 = .okDeduped ∨
        (squareWebhook envQuiet reqUnknown stEmpty).1 = .ok ∨
        (squareWebhook envQuiet reqUnknown stEmpty).1 = .okIgnored) ∧
      (squareWebhook envQuiet reqUnknown stEmpty).2.processed =
        (match truthy? pldUnknown.event_id with
         | some eid => if eid ∈ stEmpty.processed then stEmpty.processed
            else eid :: stEmpty.processed
         | none => stEmpty.processed)) :=
  ⟨⟨by decide, rfl, by decide, by decide, by decide⟩,
   unknownKindFrame envQuiet reqUnknown stEmpty pldUnknown (by decide) rfl
     (by decide) (by decide) (by decide)⟩

/-- Claim C10: processing an `order.updated` event changes at most one
receipt of the store, and for every stored receipt the fields `id`,
`user_id`, `merchant`, `payment_id`, `currency`, `total` and `timestamp`
are left unchanged — only `items` and `meta` of the single matched receipt
may change. -/
theorem orderUpdateFrame (env : Env) (req : Req) (st : St) (p : SqPayload)
    (hp : req.parsed = .obj p) (ht : p.type = some "order.updated") :
    (squareWebhook env req st).2.transactions.map keyFields
      = st.transactions.map keyFields ∧
    countDiffs st.transactions (squareWebhook env req st).2.transactions ≤ 1 := by
  have hfr := squareProcess_order_frame env p st.transactions st.nextId ht
  unfold squareWebhook
  by_cases hf : sigFails env req
  · simp [hf, countDiffs_self]
  · cases heid : truthy? p.event_id with
    | some eid =>
      by_cases hin : eid ∈ st.processed
      · simp [hf, hp, heid, hin, countDiffs_self]
      · simp only [hf, Bool.false_eq_true, if_false, hp, heid, hin, if_neg hin]
        exact hfr
    | none =>
      simp only [hf, Bool.false_eq_true, if_false, hp, heid]
      exact hfr

/-- Witness for C10: the `oY` order event against the store holding the
`oX`-linked receipt. -/
theorem orderUpdateFrame_holds :
    (reqOrderOY.parsed = .obj pldOrderOY ∧ pldOrderOY.type = some "order.updated") ∧
    ((squareWebhook envQuiet reqOrderOY stOneOX).2.transactions.map keyFields
        = stOneOX.transactions.map keyFields ∧
      countDiffs stOneOX.transactions
        (squareWebhook envQuiet reqOrderOY stOneOX).2.transactions ≤ 1) :=
  ⟨⟨rfl, rfl⟩, orderUpdateFrame envQuiet reqOrderOY stOneOX pldOrderOY rfl rfl⟩

end Receipts
